import Mathlib

/-!
Verification development for the sport_fzo_52 service-catalog bot.

The definitions below are a shallow embedding of the repository's data
model and of the handler / task / middleware code that the checked
properties talk about.  Object ids are modelled as `Nat`, UTC timestamps
as `Int` (seconds), Python strings as Lean `String` (or `List Char` for
the character-level phone validators), optional values as `Option`,
and the MongoDB collections as Lean lists of records.
-/

namespace SportFzo

/-- Application status enumeration (`app/models/application.py`, `ApplicationStatus`). -/
inductive ApplicationStatus where
  | pending
  | accepted
  | transferred
  | completed
  | cancelled
  | rejected
deriving DecidableEq, Repr

/-- User document (`app/models/user.py`, class `User`, plus the
`BaseDocument` fields `id`, `created_at`, `updated_at`, `is_active`). -/
structure User where
  id : Nat
  telegram_id : Int
  username : Option String
  first_name : String
  last_name : Option String
  display_name : String
  phone : Option String
  language_code : Option String
  is_admin : Bool
  is_super_admin : Bool
  is_blocked : Bool
  last_activity : Option Int
  registration_completed : Bool
  phone_shared : Bool
  preferred_districts : List String
  preferred_sports : List String
  total_applications : Int
  created_at : Int
  updated_at : Option Int
  is_active : Bool
deriving DecidableEq, Repr

/-- District document (`app/models/district.py`), restricted to the fields
read by the code under verification. -/
structure District where
  id : Nat
  name : String
  description : Option String
  sort_order : Int
  created_at : Int
  updated_at : Option Int
  is_active : Bool
deriving DecidableEq, Repr

/-- FOK (facility) document (`app/models/fok.py`), restricted to the fields
read by the code under verification. -/
structure FOK where
  id : Nat
  name : String
  district : String
  address : String
  sports : List String
  featured : Bool
  sort_order : Int
  total_applications : Int
  created_at : Int
  updated_at : Option Int
  is_active : Bool
deriving DecidableEq, Repr

/-- Application document (`app/models/application.py`, class `Application`,
plus the `BaseDocument` fields). -/
structure Application where
  id : Nat
  user_id : Nat
  fok_id : Nat
  user_name : String
  user_phone : String
  user_telegram_id : Int
  fok_name : String
  fok_district : String
  fok_address : String
  status : ApplicationStatus
  message : Option String
  admin_notes : Option String
  status_updated_at : Option Int
  completed_at : Option Int
  cancelled_at : Option Int
  processed_by : Option Nat
  priority : Int
  created_at : Int
  updated_at : Option Int
  is_active : Bool
deriving DecidableEq, Repr

/-- `User.can_make_applications` (`app/models/user.py` lines 43-46):
`return self.phone_shared and self.phone is not None`. -/
def User.can_make_applications (u : User) : Bool :=
  u.phone_shared && u.phone.isSome

/-- `Application.can_be_cancelled` (`app/models/application.py` lines 61-64):
`return self.status in [ApplicationStatus.PENDING, ApplicationStatus.ACCEPTED]`. -/
def Application.can_be_cancelled (a : Application) : Bool :=
  decide (a.status = ApplicationStatus.pending ∨ a.status = ApplicationStatus.accepted)

/-- `BaseDocument.update_timestamp` (`app/models/base.py` lines 43-46)
specialised to `Application`: sets `updated_at` to the current time. -/
def Application.update_timestamp (a : Application) (now : Int) : Application :=
  { a with updated_at := some now }

/-- Python truthiness of an optional string (`if notes:` is false both for
`None` and for the empty string). -/
def truthyStr : Option String → Bool
  | none => false
  | some s => s ≠ ""

/-- `Application.update_status` (`app/models/application.py` lines 66-83).
Sets `status` and `status_updated_at`, stamps `updated_at` via
`update_timestamp`, stores `processed_by` when one is supplied
(`if processed_by:`), stores `notes` when truthy (`if notes:`), and sets
`completed_at` / `cancelled_at` when the new status is COMPLETED /
CANCELLED respectively. -/
def Application.update_status (a : Application) (new_status : ApplicationStatus)
    (processed_by : Option Nat) (notes : Option String) (now : Int) : Application :=
  let a1 := ({ a with status := new_status, status_updated_at := some now }).update_timestamp now
  let a2 := match processed_by with
    | some p => { a1 with processed_by := some p }
    | none => a1
  let a3 := if truthyStr notes then { a2 with admin_notes := notes } else a2
  if new_status = ApplicationStatus.completed then { a3 with completed_at := some now }
  else if new_status = ApplicationStatus.cancelled then { a3 with cancelled_at := some now }
  else a3

/-- Written from the words of claim C3 for comparison with the source
definition: `phone_shared` is true and `phone` is a non-empty string. -/
def can_make_applications_specClaim (u : User) : Bool :=
  u.phone_shared && (match u.phone with
    | some s => s ≠ ""
    | none => false)

/-- Sample user holding the empty string as phone with `phone_shared = true`. -/
def userEmptyPhone : User :=
  { id := 1, telegram_id := 100, username := none, first_name := "A",
    last_name := none, display_name := "A", phone := some "",
    language_code := some "ru", is_admin := false, is_super_admin := false,
    is_blocked := false, last_activity := none, registration_completed := true,
    phone_shared := true, preferred_districts := [], preferred_sports := [],
    total_applications := 0, created_at := 0, updated_at := none,
    is_active := true }

/-- C3 counterexample: a user with `phone_shared = true` and `phone = ""`
has `can_make_applications = true` in the code, while the claim's
non-empty-phone reading says it must be false. -/
theorem c3_counterexample :
    userEmptyPhone.can_make_applications = true ∧
    can_make_applications_specClaim userEmptyPhone = false := by
  decide

/-- C3 (amended): `can_make_applications` is true iff `phone_shared` is true
and `phone` is present (not null); the emptiness of the string is not
checked, so a user with `phone_shared = true` and `phone = ""` can make
applications. -/
theorem c3_can_make_applications_amended (u : User) :
    u.can_make_applications = true ↔ (u.phone_shared = true ∧ ∃ s, u.phone = some s) := by
  simp [User.can_make_applications, Option.isSome_iff_exists]

/-- `BaseRepository.update` (`app/database/repositories.py` lines 33-38)
specialised to applications: stamps `update_timestamp` on the object and
overwrites the stored document whose `_id` matches. -/
def repoUpdateApplication (apps : List Application) (a : Application) (now : Int) :
    Application × List Application :=
  let a1 := a.update_timestamp now
  (a1, apps.map fun x => if x.id = a1.id then a1 else x)

/-- `admin_accept_application` (`app/handlers/admin.py` lines 199-226):
if the application is found, unconditionally `update_status(ACCEPTED, user.id)`
and persist; there is no check of the current status. -/
def admin_accept_application (found : Option Application) (adminId : Nat)
    (apps : List Application) (now : Int) : Option Application × List Application :=
  match found with
  | none => (none, apps)
  | some application =>
    let a1 := application.update_status ApplicationStatus.accepted (some adminId) none now
    let r := repoUpdateApplication apps a1 now
    (some r.1, r.2)

/-- `admin_transfer_application` (`app/handlers/admin.py` lines 229-256). -/
def admin_transfer_application (found : Option Application) (adminId : Nat)
    (apps : List Application) (now : Int) : Option Application × List Application :=
  match found with
  | none => (none, apps)
  | some application =>
    let a1 := application.update_status ApplicationStatus.transferred (some adminId) none now
    let r := repoUpdateApplication apps a1 now
    (some r.1, r.2)

/-- `admin_complete_application` (`app/handlers/admin.py` lines 259-286). -/
def admin_complete_application (found : Option Application) (adminId : Nat)
    (apps : List Application) (now : Int) : Option Application × List Application :=
  match found with
  | none => (none, apps)
  | some application =>
    let a1 := application.update_status ApplicationStatus.completed (some adminId) none now
    let r := repoUpdateApplication apps a1 now
    (some r.1, r.2)

/-- `admin_reject_application` (`app/handlers/admin.py` lines 289-316). -/
def admin_reject_application (found : Option Application) (adminId : Nat)
    (apps : List Application) (now : Int) : Option Application × List Application :=
  match found with
  | none => (none, apps)
  | some application =>
    let a1 := application.update_status ApplicationStatus.rejected (some adminId) none now
    let r := repoUpdateApplication apps a1 now
    (some r.1, r.2)

/-- Sample application in the terminal COMPLETED status. -/
def appTerminalDone : Application :=
  { id := 7, user_id := 1, fok_id := 3, user_name := "A", user_phone := "+79000000000",
    user_telegram_id := 100, fok_name := "F", fok_district := "D", fok_address := "X",
    status := ApplicationStatus.completed, message := none, admin_notes := none,
    status_updated_at := some 50, completed_at := some 50, cancelled_at := none,
    processed_by := some 2, priority := 0, created_at := 10, updated_at := some 50,
    is_active := true }

/-- C1 counterexample: the reject handler, applied to an application already
in the terminal COMPLETED status, changes its status to REJECTED — terminal
states are not absorbing. -/
theorem c1_counterexample :
    ((admin_reject_application (some appTerminalDone) 1 [appTerminalDone] 100).1.map
        Application.status = some ApplicationStatus.rejected) ∧
    appTerminalDone.status = ApplicationStatus.completed ∧
    ApplicationStatus.rejected ≠ ApplicationStatus.completed := by
  decide

/-- C1 (amended): the admin transition handlers never inspect the current
status: for every found application — whatever its status, terminal ones
included — accept, transfer, complete and reject unconditionally set the
status to ACCEPTED, TRANSFERRED, COMPLETED and REJECTED respectively. -/
theorem c1_admin_transitions_unconditional (a : Application) (adminId : Nat)
    (apps : List Application) (now : Int) :
    ((admin_accept_application (some a) adminId apps now).1.map Application.status
       = some ApplicationStatus.accepted) ∧
    ((admin_transfer_application (some a) adminId apps now).1.map Application.status
       = some ApplicationStatus.transferred) ∧
    ((admin_complete_application (some a) adminId apps now).1.map Application.status
       = some ApplicationStatus.completed) ∧
    ((admin_reject_application (some a) adminId apps now).1.map Application.status
       = some ApplicationStatus.rejected) := by
  refine ⟨?_, ?_, ?_, ?_⟩ <;>
    simp [admin_accept_application, admin_transfer_application,
      admin_complete_application, admin_reject_application,
      repoUpdateApplication, Application.update_status, Application.update_timestamp,
      truthyStr]

/-- Sample application carrying an existing admin note. -/
def appWithNote : Application :=
  { id := 2, user_id := 1, fok_id := 3, user_name := "A", user_phone := "+79000000000",
    user_telegram_id := 100, fok_name := "F", fok_district := "D", fok_address := "X",
    status := ApplicationStatus.pending, message := none, admin_notes := some "old",
    status_updated_at := none, completed_at := none, cancelled_at := none,
    processed_by := none, priority := 0, created_at := 0, updated_at := none,
    is_active := true }

/-- C7 counterexample: a supplied empty note is not stored — `if notes:` is
false for the empty string, so `admin_notes` keeps its previous value. -/
theorem c7_counterexample :
    (appWithNote.update_status ApplicationStatus.accepted none (some "") 100).admin_notes
      = some "old" ∧
    (some "old" : Option String) ≠ some "" := by
  decide

/-- C7 (amended): `update_status` sets `status` to the target,
`status_updated_at` and `updated_at` to the current time, stores a supplied
acting-admin reference, stores a supplied note only when it is non-empty,
sets `completed_at` exactly when the target is COMPLETED and `cancelled_at`
exactly when the target is CANCELLED, and leaves every other field
unchanged. -/
theorem c7_update_status_frame (a : Application) (ns : ApplicationStatus)
    (pb : Option Nat) (notes : Option String) (now : Int) :
    ((a.update_status ns pb notes now).status = ns) ∧
    ((a.update_status ns pb notes now).status_updated_at = some now) ∧
    ((a.update_status ns pb notes now).updated_at = some now) ∧
    ((a.update_status ns pb notes now).processed_by
       = (match pb with | some p => some p | none => a.processed_by)) ∧
    ((a.update_status ns pb notes now).admin_notes
       = (if truthyStr notes then notes else a.admin_notes)) ∧
    ((a.update_status ns pb notes now).completed_at
       = (if ns = ApplicationStatus.completed then some now else a.completed_at)) ∧
    ((a.update_status ns pb notes now).cancelled_at
       = (if ns = ApplicationStatus.cancelled then some now else a.cancelled_at)) ∧
    ((a.update_status ns pb notes now).id = a.id) ∧
    ((a.update_status ns pb notes now).user_id = a.user_id) ∧
    ((a.update_status ns pb notes now).fok_id = a.fok_id) ∧
    ((a.update_status ns pb notes now).user_name = a.user_name) ∧
    ((a.update_status ns pb notes now).user_phone = a.user_phone) ∧
    ((a.update_status ns pb notes now).user_telegram_id = a.user_telegram_id) ∧
    ((a.update_status ns pb notes now).fok_name = a.fok_name) ∧
    ((a.update_status ns pb notes now).fok_district = a.fok_district) ∧
    ((a.update_status ns pb notes now).fok_address = a.fok_address) ∧
    ((a.update_status ns pb notes now).message = a.message) ∧
    ((a.update_status ns pb notes now).priority = a.priority) ∧
    ((a.update_status ns pb notes now).created_at = a.created_at) ∧
    ((a.update_status ns pb notes now).is_active = a.is_active) := by
  cases pb <;> cases ns <;>
    by_cases h : truthyStr notes = true <;>
    simp [Application.update_status, Application.update_timestamp, h]

/-- `ApplicationRepository.has_user_applied_to_fok`
(`app/database/repositories.py` lines 203-211): count of documents with the
given user and fok ids, status not in {CANCELLED, REJECTED} and
`is_active = true` is positive. -/
def has_user_applied_to_fok (apps : List Application) (userId fokId : Nat) : Bool :=
  0 < (apps.filter (fun a =>
    decide (a.user_id = userId ∧ a.fok_id = fokId ∧
      a.status ≠ ApplicationStatus.cancelled ∧ a.status ≠ ApplicationStatus.rejected ∧
      a.is_active = true))).length

/-- Outcome of the submit-application handler. -/
inductive ApplyOutcome where
  | needPhone
  | fokNotFound
  | alreadyApplied
  | created (appId : Nat)
deriving DecidableEq, Repr

/-- `apply_to_fok` (`app/handlers/applications.py` lines 22-98): rejects when
the user cannot make applications, then when the facility is not found, then
when `has_user_applied_to_fok` holds; otherwise inserts a new PENDING
application snapshotting the user and facility fields.  `found` is the
result of the facility lookup and `newId` the id assigned by the insert. -/
def apply_to_fok (user : User) (found : Option FOK) (apps : List Application)
    (newId : Nat) (now : Int) : ApplyOutcome × List Application :=
  if user.can_make_applications = false then (ApplyOutcome.needPhone, apps)
  else
    match found with
    | none => (ApplyOutcome.fokNotFound, apps)
    | some fok =>
      if has_user_applied_to_fok apps user.id fok.id then (ApplyOutcome.alreadyApplied, apps)
      else
        let application : Application :=
          { id := newId, user_id := user.id, fok_id := fok.id,
            user_name := user.display_name, user_phone := user.phone.getD "",
            user_telegram_id := user.telegram_id,
            fok_name := fok.name, fok_district := fok.district,
            fok_address := fok.address,
            status := ApplicationStatus.pending, message := none, admin_notes := none,
            status_updated_at := none, completed_at := none, cancelled_at := none,
            processed_by := none, priority := 0,
            created_at := now, updated_at := none, is_active := true }
        (ApplyOutcome.created newId, apps ++ [application])

/-- Sample facility record. -/
def fokSample : FOK :=
  { id := 3, name := "F", district := "D", address := "X", sports := ["бокс"],
    featured := false, sort_order := 0, total_applications := 0,
    created_at := 0, updated_at := none, is_active := true }

/-- Sample live PENDING application of user 1 to facility 3. -/
def appLivePending : Application :=
  { id := 4, user_id := 1, fok_id := 3, user_name := "A", user_phone := "+79000000000",
    user_telegram_id := 100, fok_name := "F", fok_district := "D", fok_address := "X",
    status := ApplicationStatus.pending, message := none, admin_notes := none,
    status_updated_at := none, completed_at := none, cancelled_at := none,
    processed_by := none, priority := 0, created_at := 0, updated_at := none,
    is_active := true }

/-- Sample user without a shared phone who nevertheless owns application
`appLivePending`. -/
def userNoPhone : User :=
  { id := 1, telegram_id := 100, username := none, first_name := "A",
    last_name := none, display_name := "A", phone := none,
    language_code := some "ru", is_admin := false, is_super_admin := false,
    is_blocked := false, last_activity := none, registration_completed := true,
    phone_shared := false, preferred_districts := [], preferred_sports := [],
    total_applications := 1, created_at := 0, updated_at := none,
    is_active := true }

/-- C2 counterexample: a user holding a live application to the facility but
currently unable to make applications (phone not shared) is turned away by
the phone guard, not by the duplicate-request response, so the claimed
"rejected with an informational duplicate-request response" fails for this
(user, facility) pair — though still no second record is created. -/
theorem c2_counterexample :
    apply_to_fok userNoPhone (some fokSample) [appLivePending] 5 100
      = (ApplyOutcome.needPhone, [appLivePending]) ∧
    ApplyOutcome.needPhone ≠ ApplyOutcome.alreadyApplied := by
  decide

/-- C2 (amended): when the user already holds an active application to the
facility whose status is neither CANCELLED nor REJECTED, a second submit
attempt never creates a second record, and — whenever the user passes the
can-make-applications guard — it is rejected with the duplicate-request
response. -/
theorem c2_duplicate_application_guard (user : User) (fok : FOK)
    (apps : List Application) (newId : Nat) (now : Int)
    (hdup : ∃ a ∈ apps, a.user_id = user.id ∧ a.fok_id = fok.id ∧
      a.status ≠ ApplicationStatus.cancelled ∧ a.status ≠ ApplicationStatus.rejected ∧
      a.is_active = true) :
    (apply_to_fok user (some fok) apps newId now).2 = apps ∧
    (user.can_make_applications = true →
      (apply_to_fok user (some fok) apps newId now).1 = ApplyOutcome.alreadyApplied) := by
  obtain ⟨a, ha, hprop⟩ := hdup
  have hmem : a ∈ apps.filter (fun a =>
      decide (a.user_id = user.id ∧ a.fok_id = fok.id ∧
        a.status ≠ ApplicationStatus.cancelled ∧ a.status ≠ ApplicationStatus.rejected ∧
        a.is_active = true)) := by
    simp only [List.mem_filter, decide_eq_true_eq]
    exact ⟨ha, hprop⟩
  have happlied : has_user_applied_to_fok apps user.id fok.id = true := by
    simp only [has_user_applied_to_fok, decide_eq_true_eq]
    exact List.length_pos.mpr (List.ne_nil_of_mem hmem)
  by_cases hphone : user.can_make_applications = true
  · constructor
    · simp [apply_to_fok, hphone, happlied]
    · intro _
      simp [apply_to_fok, hphone, happlied]
  · have hphone' : user.can_make_applications = false := by
      revert hphone
      cases user.can_make_applications <;> simp
    constructor
    · simp [apply_to_fok, hphone']
    · intro h
      exact absurd h hphone

/-- C2 witness at concrete input: a phone-holding user with a live PENDING
application to the facility gets the duplicate response and no new record. -/
theorem c2_witness :
    (∃ a ∈ [appLivePending], a.user_id = userEmptyPhone.id ∧ a.fok_id = fokSample.id ∧
      a.status ≠ ApplicationStatus.cancelled ∧ a.status ≠ ApplicationStatus.rejected ∧
      a.is_active = true) ∧
    (apply_to_fok userEmptyPhone (some fokSample) [appLivePending] 5 100).2
      = [appLivePending] ∧
    (apply_to_fok userEmptyPhone (some fokSample) [appLivePending] 5 100).1
      = ApplyOutcome.alreadyApplied := by
  have h := c2_duplicate_application_guard userEmptyPhone fokSample [appLivePending] 5 100
    (by exact ⟨appLivePending, by decide⟩)
  exact ⟨⟨appLivePending, by decide⟩, h.1, h.2 (by decide)⟩

/-- Outcome of the confirmed user-cancel handler. -/
inductive CancelOutcome where
  | notFound
  | noAccess
  | notCancellable
  | cancelledOk (a : Application)
deriving DecidableEq, Repr

/-- `confirm_cancel_application` (`app/handlers/applications.py` lines
222-274): rejects when the application is not found, when it belongs to a
different user, or when `can_be_cancelled` is false; otherwise applies
`update_status(CANCELLED)` (no admin, no note) and persists through the
repository. -/
def confirm_cancel_application (user : User) (found : Option Application)
    (apps : List Application) (now : Int) : CancelOutcome × List Application :=
  match found with
  | none => (CancelOutcome.notFound, apps)
  | some application =>
    if application.user_id ≠ user.id then (CancelOutcome.noAccess, apps)
    else if application.can_be_cancelled = false then (CancelOutcome.notCancellable, apps)
    else
      let a1 := application.update_status ApplicationStatus.cancelled none none now
      let r := repoUpdateApplication apps a1 now
      (CancelOutcome.cancelledOk r.1, r.2)

/-- C4: `can_be_cancelled` holds exactly in PENDING and ACCEPTED; for the
owner's confirmed cancel on such an application the handler produces the
application with status CANCELLED and `cancelled_at` set, persisting it;
in any other status the handler answers with the not-cancellable alert and
writes nothing. -/
theorem c4_cancel_handler (user : User) (a : Application)
    (apps : List Application) (now : Int) (hown : a.user_id = user.id) :
    (a.can_be_cancelled = true ↔
      (a.status = ApplicationStatus.pending ∨ a.status = ApplicationStatus.accepted)) ∧
    (a.can_be_cancelled = true →
      ∃ a1, confirm_cancel_application user (some a) apps now
          = (CancelOutcome.cancelledOk a1, apps.map fun x => if x.id = a1.id then a1 else x) ∧
        a1.status = ApplicationStatus.cancelled ∧
        a1.cancelled_at = some now ∧
        a1.id = a.id) ∧
    (a.can_be_cancelled = false →
      confirm_cancel_application user (some a) apps now
        = (CancelOutcome.notCancellable, apps)) := by
  refine ⟨?_, ?_, ?_⟩
  · simp [Application.can_be_cancelled]
  · intro hc
    refine ⟨(a.update_status ApplicationStatus.cancelled none none now).update_timestamp now,
      ?_, ?_, ?_, ?_⟩
    · simp [confirm_cancel_application, hown, hc, repoUpdateApplication]
    · simp [Application.update_status, Application.update_timestamp, truthyStr]
    · simp [Application.update_status, Application.update_timestamp, truthyStr]
    · simp [Application.update_status, Application.update_timestamp, truthyStr]
  · intro hc
    simp [confirm_cancel_application, hown, hc]

/-- Sample live ACCEPTED application owned by user 1. -/
def appLiveAccepted : Application :=
  { id := 9, user_id := 1, fok_id := 3, user_name := "A", user_phone := "+79000000000",
    user_telegram_id := 100, fok_name := "F", fok_district := "D", fok_address := "X",
    status := ApplicationStatus.accepted, message := none, admin_notes := none,
    status_updated_at := some 20, completed_at := none, cancelled_at := none,
    processed_by := some 2, priority := 0, created_at := 0, updated_at := some 20,
    is_active := true }

/-- C4 witness at concrete inputs: cancelling an owned ACCEPTED application
sets CANCELLED with `cancelled_at`, while an owned COMPLETED one is turned
away unchanged. -/
theorem c4_witness :
    ((appLiveAccepted.can_be_cancelled = true ↔
      (appLiveAccepted.status = ApplicationStatus.pending ∨
        appLiveAccepted.status = ApplicationStatus.accepted)) ∧
     (∃ a1, confirm_cancel_application userNoPhone (some appLiveAccepted) [appLiveAccepted] 100
          = (CancelOutcome.cancelledOk a1,
             [appLiveAccepted].map fun x => if x.id = a1.id then a1 else x) ∧
        a1.status = ApplicationStatus.cancelled ∧
        a1.cancelled_at = some 100 ∧
        a1.id = appLiveAccepted.id)) ∧
    confirm_cancel_application userNoPhone (some appTerminalDone) [appTerminalDone] 100
      = (CancelOutcome.notCancellable, [appTerminalDone]) := by
  have h1 := c4_cancel_handler userNoPhone appLiveAccepted [appLiveAccepted] 100 (by decide)
  have h2 := c4_cancel_handler userNoPhone appTerminalDone [appTerminalDone] 100 (by decide)
  exact ⟨⟨h1.1, h1.2.1 (by decide)⟩, h2.2.2 (by decide)⟩

/-- One user's `rate_limit:{id}` Redis entry: stored counter plus absolute
expiry instant.  `SETEX key w v` stores `⟨v, now + w⟩`; a read at time `t`
sees the value only while `t < expires_at`; `INCR` keeps the TTL. -/
structure RedisEntry where
  value : Nat
  expires_at : Int
deriving DecidableEq, Repr

/-- Outcome of one pass through the rate-limit middleware. -/
inductive RLOutcome where
  | allowed
  | rejected
deriving DecidableEq, Repr

/-- `RateLimitMiddleware.__call__` (`app/middlewares/rate_limit.py` lines
26-82) for one user key, one request at time `now`: a `GET` miss (no entry,
or entry expired) performs `SETEX key window 1` and calls the handler; a hit
at or above the limit answers the too-many-requests alert and returns
without calling the handler; otherwise `INCR` and call the handler. -/
def rate_limit_step (limit : Nat) (window : Int) (st : Option RedisEntry)
    (now : Int) : RLOutcome × Option RedisEntry :=
  match st with
  | none => (RLOutcome.allowed, some ⟨1, now + window⟩)
  | some r =>
    if r.expires_at ≤ now then (RLOutcome.allowed, some ⟨1, now + window⟩)
    else if limit ≤ r.value then (RLOutcome.rejected, some r)
    else (RLOutcome.allowed, some ⟨r.value + 1, r.expires_at⟩)

/-- Runs the rate-limit middleware over a sequence of request times,
collecting the outcome of each request and the final Redis state. -/
def rate_limit_run (limit : Nat) (window : Int) :
    Option RedisEntry → List Int → List RLOutcome × Option RedisEntry
  | st, [] => ([], st)
  | st, t :: ts =>
    let s1 := rate_limit_step limit window st t
    let s2 := rate_limit_run limit window s1.2 ts
    (s1.1 :: s2.1, s2.2)

/-- While the window is live and the counter stays below the limit, every
request is allowed and the counter advances by one per request. -/
theorem rate_limit_run_allowed_within (limit : Nat) (window e : Int) (k : Nat)
    (ts : List Int) (hts : ∀ t ∈ ts, t < e) (hk : k + ts.length ≤ limit) :
    rate_limit_run limit window (some ⟨k, e⟩) ts
      = (List.replicate ts.length RLOutcome.allowed, some ⟨k + ts.length, e⟩) := by
  induction ts generalizing k with
  | nil => simp [rate_limit_run]
  | cons t ts ih =>
    have ht : t < e := hts t (by simp)
    have hne : ¬ e ≤ t := not_le.mpr ht
    have hklt : ¬ limit ≤ k := by
      have : k + 1 ≤ limit := le_trans (by simp [Nat.add_le_add_left]) hk
      omega
    have hrec := ih (fun x hx => hts x (by simp [hx])) (k := k + 1) (by
      simp only [List.length_cons] at hk
      omega)
    have hval : k + 1 + ts.length = k + (ts.length + 1) := by omega
    simp only [rate_limit_run, rate_limit_step, hne, if_false, hklt,
      List.length_cons, hrec]
    simp [List.replicate_succ, hval]

/-- C5: with the configured limit of 30 requests per 60-second window, the
first request opens a window with count 1, the following 29 requests inside
the window are all allowed, the 31st request inside the window is rejected
(and leaves the counter untouched), and a request at or past the window's
expiry is allowed again and opens a fresh window with count 1. -/
theorem c5_rate_limit (t0 : Int) (ts : List Int) (t31 tNext : Int)
    (hlen : ts.length = 29)
    (hin : ∀ t ∈ ts, t < t0 + 60)
    (h31 : t31 < t0 + 60)
    (hexp : t0 + 60 ≤ tNext) :
    rate_limit_run 30 60 none (t0 :: (ts ++ [t31, tNext]))
      = (RLOutcome.allowed :: (List.replicate 29 RLOutcome.allowed
          ++ [RLOutcome.rejected, RLOutcome.allowed]),
         some ⟨1, tNext + 60⟩) := by
  have hfirst : rate_limit_step 30 60 none t0
      = (RLOutcome.allowed, some ⟨1, t0 + 60⟩) := rfl
  have hmid := rate_limit_run_allowed_within 30 60 (t0 + 60) 1 ts hin (by omega)
  have h31ne : ¬ t0 + 60 ≤ t31 := not_le.mpr h31
  have hstep31 : rate_limit_step 30 60 (some ⟨30, t0 + 60⟩) t31
      = (RLOutcome.rejected, some ⟨30, t0 + 60⟩) := by
    simp [rate_limit_step, h31ne]
  have hstepNext : rate_limit_step 30 60 (some ⟨30, t0 + 60⟩) tNext
      = (RLOutcome.allowed, some ⟨1, tNext + 60⟩) := by
    simp [rate_limit_step, hexp]
  have hsplit : ∀ (st : Option RedisEntry) (l1 l2 : List Int),
      rate_limit_run 30 60 st (l1 ++ l2)
        = ((rate_limit_run 30 60 st l1).1
            ++ (rate_limit_run 30 60 (rate_limit_run 30 60 st l1).2 l2).1,
           (rate_limit_run 30 60 (rate_limit_run 30 60 st l1).2 l2).2) := by
    intro st l1 l2
    induction l1 generalizing st with
    | nil => simp [rate_limit_run]
    | cons x xs ih => simp [rate_limit_run, ih]
  simp only [rate_limit_run, hfirst]
  rw [hsplit, hmid, hlen]
  simp only [rate_limit_run, hstep31, hstepNext]

/-- C5 witness: a concrete 31-request burst inside one window followed by a
request at the window's end. -/
theorem c5_witness :
    rate_limit_run 30 60 none (0 :: (List.replicate 29 1 ++ [2, 60]))
      = (RLOutcome.allowed :: (List.replicate 29 RLOutcome.allowed
          ++ [RLOutcome.rejected, RLOutcome.allowed]),
         some ⟨1, 120⟩) := by
  have h := c5_rate_limit 0 (List.replicate 29 1) 2 60 (by decide)
    (by
      intro t ht
      have : t = 1 := List.eq_of_mem_replicate ht
      omega)
    (by omega) (by omega)
  simpa using h

/-- MongoDB `{field: {"$lt": cutoff}}` on an optional datetime field: only
documents storing an actual timestamp strictly below the cutoff match
(a null / absent field never matches `$lt`). -/
def isOldTimestamp (cutoff : Int) : Option Int → Bool
  | some t => decide (t < cutoff)
  | none => false

/-- `_cleanup_old_data` (`app/tasks/maintenance.py` lines 18-49):
`delete_many` removes applications with status in {cancelled, rejected} and
`updated_at < now - 30 days`; `update_many` sets `is_active = false` on
users with `last_activity < now - 90 days`.  Timestamps count seconds, so a
day is 86400. -/
def cleanup_old_data (apps : List Application) (users : List User) (now : Int) :
    List Application × List User :=
  let cutoff_date := now - 90 * 86400
  let app_cutoff := now - 30 * 86400
  let apps1 := apps.filter (fun a =>
    !(decide (a.status = ApplicationStatus.cancelled ∨ a.status = ApplicationStatus.rejected)
      && isOldTimestamp app_cutoff a.updated_at))
  let users1 := users.map (fun u =>
    if isOldTimestamp cutoff_date u.last_activity then { u with is_active := false } else u)
  (apps1, users1)

/-- An optional timestamp is old iff it stores a value below the cutoff. -/
theorem isOldTimestamp_iff (c : Int) (o : Option Int) :
    isOldTimestamp c o = true ↔ ∃ t, o = some t ∧ t < c := by
  cases o <;> simp [isOldTimestamp]

/-- C6: the cleanup task keeps an application iff it is not a
cancelled/rejected one whose stored last-update timestamp is strictly older
than 30 days; it invents no application; it deletes no user record, flags
every user with `last_activity` older than 90 days inactive, and leaves the
other users untouched. -/
theorem c6_cleanup_old_data (apps : List Application) (users : List User) (now : Int) :
    (∀ a ∈ apps,
      (a ∈ (cleanup_old_data apps users now).1 ↔
        ¬((a.status = ApplicationStatus.cancelled ∨ a.status = ApplicationStatus.rejected) ∧
          ∃ t, a.updated_at = some t ∧ t < now - 30 * 86400))) ∧
    (∀ a ∈ (cleanup_old_data apps users now).1, a ∈ apps) ∧
    ((cleanup_old_data apps users now).2.length = users.length) ∧
    (∀ u ∈ users, (∃ t, u.last_activity = some t ∧ t < now - 90 * 86400) →
      { u with is_active := false } ∈ (cleanup_old_data apps users now).2) ∧
    (∀ u ∈ users, ¬(∃ t, u.last_activity = some t ∧ t < now - 90 * 86400) →
      u ∈ (cleanup_old_data apps users now).2) := by
  refine ⟨?_, ?_, ?_, ?_, ?_⟩
  · intro a ha
    constructor
    · intro hmem hcontra
      obtain ⟨hst, t, hupd, hlt⟩ := hcontra
      have hfil := (List.mem_filter.mp (by simpa only [cleanup_old_data] using hmem)).2
      have h1 : decide (a.status = ApplicationStatus.cancelled ∨
          a.status = ApplicationStatus.rejected) = true := by
        simpa using hst
      have h2 : isOldTimestamp (now - 30 * 86400) a.updated_at = true :=
        (isOldTimestamp_iff _ _).mpr ⟨t, hupd, hlt⟩
      rw [h1, h2] at hfil
      simp at hfil
    · intro hno
      have hcond : (!(decide (a.status = ApplicationStatus.cancelled ∨
          a.status = ApplicationStatus.rejected)
          && isOldTimestamp (now - 30 * 86400) a.updated_at)) = true := by
        cases hb : (decide (a.status = ApplicationStatus.cancelled ∨
            a.status = ApplicationStatus.rejected)
            && isOldTimestamp (now - 30 * 86400) a.updated_at)
        · rfl
        · exfalso
          apply hno
          have h1 := (Bool.and_eq_true _ _).mp hb
          exact ⟨by simpa using h1.1, (isOldTimestamp_iff _ _).mp h1.2⟩
      simp only [cleanup_old_data]
      exact List.mem_filter.mpr ⟨ha, hcond⟩
  · intro a ha
    simp only [cleanup_old_data] at ha
    exact List.mem_of_mem_filter ha
  · simp [cleanup_old_data]
  · intro u hu hold
    have hb : isOldTimestamp (now - 90 * 86400) u.last_activity = true :=
      (isOldTimestamp_iff _ _).mpr hold
    simp only [cleanup_old_data]
    refine List.mem_map.mpr ⟨u, hu, ?_⟩
    simp only [hb]
    simp
  · intro u hu hold
    have hb : isOldTimestamp (now - 90 * 86400) u.last_activity = false := by
      cases h : isOldTimestamp (now - 90 * 86400) u.last_activity
      · rfl
      · exact absurd ((isOldTimestamp_iff _ _).mp h) hold
    simp only [cleanup_old_data]
    refine List.mem_map.mpr ⟨u, hu, ?_⟩
    simp only [hb]
    simp

/-- Cancelled application last updated 31 days before the reference time. -/
def appCancelled31d : Application :=
  { appWithNote with
    id := 21, status := ApplicationStatus.cancelled,
    admin_notes := none, cancelled_at := some (69 * 86400),
    updated_at := some (69 * 86400) }

/-- Pending application last updated 31 days before the reference time. -/
def appPending31d : Application :=
  { appWithNote with
    id := 22, status := ApplicationStatus.pending,
    admin_notes := none, updated_at := some (69 * 86400) }

/-- Cancelled application last updated 10 days before the reference time. -/
def appCancelled10d : Application :=
  { appWithNote with
    id := 23, status := ApplicationStatus.cancelled,
    admin_notes := none, cancelled_at := some (90 * 86400),
    updated_at := some (90 * 86400) }

/-- User dormant since time 0 (far more than 90 days ago). -/
def userDormant : User :=
  { userNoPhone with id := 31, last_activity := some 0 }

/-- User active one day before the reference time. -/
def userFresh : User :=
  { userNoPhone with id := 32, last_activity := some (99 * 86400) }

/-- C6 witness at the spec's scenario (reference time = day 100): the 31-day
old cancelled application is removed, the equally old pending one and the
10-day old cancelled one survive, the dormant user is flagged inactive, the
fresh user is untouched, and no user record disappears. -/
theorem c6_witness :
    appCancelled31d ∉
      (cleanup_old_data [appCancelled31d, appPending31d, appCancelled10d]
        [userDormant, userFresh] (100 * 86400)).1 ∧
    appPending31d ∈
      (cleanup_old_data [appCancelled31d, appPending31d, appCancelled10d]
        [userDormant, userFresh] (100 * 86400)).1 ∧
    appCancelled10d ∈
      (cleanup_old_data [appCancelled31d, appPending31d, appCancelled10d]
        [userDormant, userFresh] (100 * 86400)).1 ∧
    { userDormant with is_active := false } ∈
      (cleanup_old_data [appCancelled31d, appPending31d, appCancelled10d]
        [userDormant, userFresh] (100 * 86400)).2 ∧
    userFresh ∈
      (cleanup_old_data [appCancelled31d, appPending31d, appCancelled10d]
        [userDormant, userFresh] (100 * 86400)).2 ∧
    (cleanup_old_data [appCancelled31d, appPending31d, appCancelled10d]
        [userDormant, userFresh] (100 * 86400)).2.length = 2 := by
  have h := c6_cleanup_old_data [appCancelled31d, appPending31d, appCancelled10d]
    [userDormant, userFresh] (100 * 86400)
  refine ⟨?_, ?_, ?_, ?_, ?_, ?_⟩
  · intro hmem
    exact (h.1 appCancelled31d (by decide)).mp hmem
      ⟨Or.inl rfl, 69 * 86400, rfl, by decide⟩
  · exact (h.1 appPending31d (by decide)).mpr (by
      rintro ⟨hst, -⟩
      revert hst
      decide)
  · exact (h.1 appCancelled10d (by decide)).mpr (by
      rintro ⟨-, t, ht, hlt⟩
      have : t = 90 * 86400 := by
        have := ht
        simpa [appCancelled10d, appWithNote] using this.symm
      omega)
  · exact h.2.2.2.1 userDormant (by decide) ⟨0, rfl, by decide⟩
  · exact h.2.2.2.2 userFresh (by decide) (by
      rintro ⟨t, ht, hlt⟩
      have : t = 99 * 86400 := by
        simpa [userFresh, userNoPhone] using ht.symm
      omega)
  · simpa using h.2.2.1

/-- Inline keyboard button: display text plus callback payload
(`aiogram.types.InlineKeyboardButton`). -/
structure Button where
  text : String
  callback_data : String
deriving DecidableEq, Repr

/-- Grouping into rows of two, as the `for i in range(0, len, 2)` loops of
`get_catalog_districts_keyboard` / `get_sports_filter_keyboard` do. -/
def chunk2 {α : Type} : List α → List (List α)
  | [] => []
  | [x] => [[x]]
  | x :: y :: rest => [x, y] :: chunk2 rest

/-- District button of the catalog keyboard. -/
def districtButton (d : District) : Button :=
  { text := "📍 " ++ d.name, callback_data := "district_" ++ toString d.id }

/-- The back-to-main-menu button. -/
def mainMenuButton : Button :=
  { text := "🏠 Главное меню", callback_data := "main_menu" }

/-- Previous-page control of the district catalog. -/
def districtsPrevButton (page : Nat) : Button :=
  { text := "⬅️", callback_data := "districts_page_" ++ toString page }

/-- Next-page control of the district catalog. -/
def districtsNextButton (page : Nat) : Button :=
  { text := "➡️", callback_data := "districts_page_" ++ toString page }

/-- `get_catalog_districts_keyboard` (`app/keyboards/inline.py` lines 29-71):
slices `districts[page*per_page : (page+1)*per_page]`, renders the slice two
buttons per row, appends a pagination row (previous only when `page > 0`,
next only when `end_idx < len(districts)`) when non-empty, then the
back-to-main-menu row. -/
def get_catalog_districts_keyboard (districts : List District) (page per_page : Nat) :
    List (List Button) :=
  let start_idx := page * per_page
  let districts_page := (districts.drop start_idx).take per_page
  let item_rows := chunk2 (districts_page.map districtButton)
  let prev : List Button := if 0 < page then [districtsPrevButton (page - 1)] else []
  let next : List Button :=
    if start_idx + per_page < districts.length then [districtsNextButton (page + 1)] else []
  let pagination := prev ++ next
  item_rows ++ (if pagination = [] then [] else [pagination]) ++ [[mainMenuButton]]

/-- `districts_page` handler (`app/handlers/catalog.py` lines 48-62): loads
the full active-district list and renders the requested page with the
configured page size (`MAX_ITEMS_PER_PAGE`, default 10). -/
def districts_page (districts : List District) (page : Nat) : List (List Button) :=
  get_catalog_districts_keyboard districts page 10

/-- C8: over 25 districts at page size 10, page 0 renders districts 1-10
with a next control and no previous control, page 1 renders districts 11-20
with both controls, page 2 renders districts 21-25 with only a previous
control, and the back-to-main-menu row closes every page. -/
theorem c8_districts_pagination (districts : List District)
    (h : districts.length = 25) :
    districts_page districts 0
      = chunk2 ((districts.take 10).map districtButton)
        ++ [[districtsNextButton 1]] ++ [[mainMenuButton]] ∧
    districts_page districts 1
      = chunk2 (((districts.drop 10).take 10).map districtButton)
        ++ [[districtsPrevButton 0, districtsNextButton 2]] ++ [[mainMenuButton]] ∧
    districts_page districts 2
      = chunk2 (((districts.drop 20).take 10).map districtButton)
        ++ [[districtsPrevButton 1]] ++ [[mainMenuButton]] := by
  refine ⟨?_, ?_, ?_⟩ <;>
    simp [districts_page, get_catalog_districts_keyboard, h]

/-- Concrete list of 25 districts. -/
def districts25 : List District :=
  (List.range 25).map (fun i =>
    { id := i, name := "D" ++ toString i, description := none, sort_order := 0,
      created_at := 0, updated_at := none, is_active := true })

/-- C8 witness: the pagination theorem instantiated on the concrete
25-district catalog. -/
theorem c8_witness :
    districts_page districts25 0
      = chunk2 ((districts25.take 10).map districtButton)
        ++ [[districtsNextButton 1]] ++ [[mainMenuButton]] ∧
    districts_page districts25 1
      = chunk2 (((districts25.drop 10).take 10).map districtButton)
        ++ [[districtsPrevButton 0, districtsNextButton 2]] ++ [[mainMenuButton]] ∧
    districts_page districts25 2
      = chunk2 (((districts25.drop 20).take 10).map districtButton)
        ++ [[districtsPrevButton 1]] ++ [[mainMenuButton]] :=
  c8_districts_pagination districts25 (by simp [districts25])

/-- Repository skip/limit pagination: `.skip(skip).limit(limit)` applied to
a sorted cursor (`FOKRepository.get_by_district`,
`ApplicationRepository.get_user_applications`). -/
def repo_page {α : Type} (l : List α) (skip limit : Nat) : List α :=
  (l.drop skip).take limit

/-- Facility button of the facility-list keyboard. -/
def fokButton (f : FOK) : Button :=
  { text := "🏢 " ++ f.name, callback_data := "fok_" ++ toString f.id }

/-- Previous-page control of the facility list. -/
def foksPrevButton (district_name : String) (page : Nat) : Button :=
  { text := "⬅️",
    callback_data := "foks_page_" ++ district_name ++ "_" ++ toString page }

/-- Next-page control of the facility list. -/
def foksNextButton (district_name : String) (page : Nat) : Button :=
  { text := "➡️",
    callback_data := "foks_page_" ++ district_name ++ "_" ++ toString page }

/-- Navigation row closing the facility-list keyboard. -/
def foksNavRow : List Button :=
  [{ text := "🔙 К районам", callback_data := "catalog_main" }, mainMenuButton]

/-- `get_foks_keyboard` (`app/keyboards/inline.py` lines 74-112): slices the
given list at `page*per_page`, one button per facility, pagination row as in
the district keyboard, then the navigation row. -/
def get_foks_keyboard (foks : List FOK) (district_name : String) (page per_page : Nat) :
    List (List Button) :=
  let start_idx := page * per_page
  let foks_slice := (foks.drop start_idx).take per_page
  let item_rows := foks_slice.map (fun f => [fokButton f])
  let prev : List Button := if 0 < page then [foksPrevButton district_name (page - 1)] else []
  let next : List Button :=
    if start_idx + per_page < foks.length then [foksNextButton district_name (page + 1)] else []
  let pagination := prev ++ next
  item_rows ++ (if pagination = [] then [] else [pagination]) ++ [foksNavRow]

/-- Status glyph of the user-application list
(`get_applications_keyboard`, `app/keyboards/inline.py` lines 162-169). -/
def statusEmoji : ApplicationStatus → String
  | ApplicationStatus.pending => "⏳"
  | ApplicationStatus.accepted => "✅"
  | ApplicationStatus.transferred => "📤"
  | ApplicationStatus.completed => "🎉"
  | ApplicationStatus.cancelled => "❌"
  | ApplicationStatus.rejected => "🚫"

/-- Application button of the my-applications keyboard. -/
def applicationButton (a : Application) : Button :=
  { text := statusEmoji a.status ++ " " ++ a.fok_name,
    callback_data := "application_" ++ toString a.id }

/-- Previous-page control of the my-applications list. -/
def appsPrevButton (page : Nat) : Button :=
  { text := "⬅️", callback_data := "apps_page_" ++ toString page }

/-- Next-page control of the my-applications list. -/
def appsNextButton (page : Nat) : Button :=
  { text := "➡️", callback_data := "apps_page_" ++ toString page }

/-- The submit-your-first-application button shown on an empty list. -/
def firstApplicationButton : Button :=
  { text := "📝 Подать первую заявку", callback_data := "catalog_main" }

/-- `get_applications_keyboard` (`app/keyboards/inline.py` lines 146-197):
on an empty list, a go-to-catalog button; otherwise the
`page*per_page` slice one button per application, the pagination row, and
the back-to-main-menu row in every case. -/
def get_applications_keyboard (applications : List Application) (page per_page : Nat) :
    List (List Button) :=
  if applications = [] then [[firstApplicationButton], [mainMenuButton]]
  else
    let start_idx := page * per_page
    let apps_slice := (applications.drop start_idx).take per_page
    let item_rows := apps_slice.map (fun a => [applicationButton a])
    let prev : List Button := if 0 < page then [appsPrevButton (page - 1)] else []
    let next : List Button :=
      if start_idx + per_page < applications.length then [appsNextButton (page + 1)] else []
    let pagination := prev ++ next
    item_rows ++ (if pagination = [] then [] else [pagination]) ++ [[mainMenuButton]]

/-- `foks_page` handler (`app/handlers/catalog.py` lines 114-131): fetches
only the requested repository page (`skip = page * n`, `limit = n`) and
hands that already-paginated list to `get_foks_keyboard` with the same page
number, which slices it again. -/
def foks_page (district_foks : List FOK) (district_name : String) (page n : Nat) :
    List (List Button) :=
  get_foks_keyboard (repo_page district_foks (page * n) n) district_name page n

/-- `applications_page` handler (`app/handlers/applications.py` lines
132-150): same double-pagination pattern over the user's applications. -/
def applications_page (user_apps : List Application) (page n : Nat) :
    List (List Button) :=
  get_applications_keyboard (repo_page user_apps (page * n) n) page n

/-- C10: for every page `p ≥ 1` and page size `n ≥ 1`, the fetched page has
at most `n ≤ p*n` elements, so the second slice inside the keyboard builder
is empty: the rendered facility keyboard is exactly the previous-page
control plus the navigation row (no item buttons, no next control), and the
rendered applications keyboard is either the empty-list variant or the
previous-page control plus the main-menu row — never an item button or a
next control — regardless of how many records exist. -/
theorem c10_double_pagination (foks : List FOK) (apps : List Application)
    (dn : String) (p n : Nat) (hp : 1 ≤ p) (hn : 1 ≤ n) :
    foks_page foks dn p n = [[foksPrevButton dn (p - 1)], foksNavRow] ∧
    applications_page apps p n =
      (if repo_page apps (p * n) n = [] then [[firstApplicationButton], [mainMenuButton]]
       else [[appsPrevButton (p - 1)], [mainMenuButton]]) := by
  have hp0 : 0 < p := hp
  have hmul : n ≤ p * n := Nat.le_mul_of_pos_left n hp0
  constructor
  · have h1 : (repo_page foks (p * n) n).length ≤ n := by
      simp only [repo_page, List.length_take]
      exact Nat.min_le_left _ _
    have hdrop : ((repo_page foks (p * n) n).drop (p * n)) = [] :=
      List.drop_eq_nil_of_le (le_trans h1 hmul)
    have hnext : ¬ (p * n + n < (repo_page foks (p * n) n).length) := by omega
    simp [foks_page, get_foks_keyboard, hdrop, hnext, hp0]
  · by_cases hempty : repo_page apps (p * n) n = []
    · simp [applications_page, get_applications_keyboard, hempty]
    · have h1 : (repo_page apps (p * n) n).length ≤ n := by
        simp only [repo_page, List.length_take]
        exact Nat.min_le_left _ _
      have hdrop : ((repo_page apps (p * n) n).drop (p * n)) = [] :=
        List.drop_eq_nil_of_le (le_trans h1 hmul)
      have hnext : ¬ (p * n + n < (repo_page apps (p * n) n).length) := by omega
      simp [applications_page, get_applications_keyboard, hempty, hdrop, hnext, hp0]

/-- C10 witness: with 12 matching facilities and 12 applications at page
size 5, page 1 renders no item button and no next control on either list. -/
theorem c10_witness :
    foks_page (List.replicate 12 fokSample) "D" 1 5
      = [[foksPrevButton "D" 0], foksNavRow] ∧
    applications_page (List.replicate 12 appLivePending) 1 5
      = (if repo_page (List.replicate 12 appLivePending) (1 * 5) 5 = []
         then [[firstApplicationButton], [mainMenuButton]]
         else [[appsPrevButton 0], [mainMenuButton]]) :=
  c10_double_pagination (List.replicate 12 fokSample)
    (List.replicate 12 appLivePending) "D" 1 5 (by decide) (by decide)

/-- `re.sub(r'\D', '', phone)`: the digit characters of the input, in
order.  Phone strings are modelled character by character. -/
def digitsOnly (s : List Char) : List Char := s.filter Char.isDigit

/-- Python `str.startswith(p)`. -/
def pyStartsWith (s p : List Char) : Bool := decide (s.take p.length = p)

/-- `validate_phone` (`app/utils/validators.py` lines 5-22): empty input is
invalid; 10 digits must start with 9; 11 digits must start with 7 and have
9 as the second digit; every other digit count is invalid. -/
def validate_phone (phone : List Char) : Bool :=
  if phone = [] then false
  else
    let d := digitsOnly phone
    if d.length = 10 then pyStartsWith d ['9']
    else if d.length = 11 then pyStartsWith d ['7'] && decide (d[1]? = some '9')
    else false

/-- `normalize_phone` (`app/utils/validators.py` lines 34-50): empty input
gives None; 10 digits starting with 9 get a `+7` prefix; 11 digits starting
with 7 get a `+`; 11 digits starting with 8 get the 8 replaced by `+7`;
anything else gives None. -/
def normalize_phone (phone : List Char) : Option (List Char) :=
  if phone = [] then none
  else
    let d := digitsOnly phone
    if d.length = 10 ∧ pyStartsWith d ['9'] = true then some ('+' :: '7' :: d)
    else if d.length = 11 ∧ pyStartsWith d ['7'] = true then some ('+' :: d)
    else if d.length = 11 ∧ pyStartsWith d ['8'] = true then some ('+' :: '7' :: d.drop 1)
    else none

/-- Unfolding lemma for `digitsOnly` on a cons cell. -/
theorem digitsOnly_cons (c : Char) (l : List Char) :
    digitsOnly (c :: l) = if Char.isDigit c then c :: digitsOnly l else digitsOnly l := by
  simp [digitsOnly, List.filter_cons]

/-- Extracting digits is idempotent. -/
theorem digitsOnly_idem (s : List Char) : digitsOnly (digitsOnly s) = digitsOnly s :=
  List.filter_eq_self.mpr (fun _ hc => List.of_mem_filter hc)

/-- A list whose 1-prefix is `[a]` has `a` in position 0. -/
theorem take_one_elem {l : List Char} {a : Char} (h : l.take 1 = [a]) :
    l[0]? = some a := by
  cases l with
  | nil => simp at h
  | cons x xs =>
    simp at h
    simp [h]

/-- A list whose 2-prefix is `[a, b]` is `a :: b :: t` for some `t`. -/
theorem take_two_shape {l : List Char} {a b : Char} (h : l.take 2 = [a, b]) :
    ∃ t, l = a :: b :: t := by
  cases l with
  | nil => simp at h
  | cons x xs =>
    cases xs with
    | nil => simp at h
    | cons y ys =>
      simp at h
      exact ⟨ys, by simp [h.1, h.2]⟩

/-- C9 (amended): for each of the three accepted raw forms (10 digits
starting with 9, 11 starting with 7, 11 starting with 8 — in particular the
claim's 79 and 89 forms) with arbitrary non-digit separators,
`normalize_phone` yields the canonical `+7`-prefixed digit string, and when
the result's second digit is 9 (always the case for the 9/79/89 forms)
`validate_phone` accepts it and re-normalising returns it unchanged; the
result is absent exactly when the digit content is in none of those three
runtime forms (which is a wider family than the claim's three forms). -/
theorem c9_phone_normalization_amended (s : List Char) :
    ((digitsOnly s).length = 10 → pyStartsWith (digitsOnly s) ['9'] = true →
      normalize_phone s = some ('+' :: '7' :: digitsOnly s) ∧
      validate_phone ('+' :: '7' :: digitsOnly s) = true ∧
      normalize_phone ('+' :: '7' :: digitsOnly s) = some ('+' :: '7' :: digitsOnly s)) ∧
    ((digitsOnly s).length = 11 → pyStartsWith (digitsOnly s) ['7', '9'] = true →
      normalize_phone s = some ('+' :: digitsOnly s) ∧
      validate_phone ('+' :: digitsOnly s) = true ∧
      normalize_phone ('+' :: digitsOnly s) = some ('+' :: digitsOnly s)) ∧
    ((digitsOnly s).length = 11 → pyStartsWith (digitsOnly s) ['8', '9'] = true →
      normalize_phone s = some ('+' :: '7' :: (digitsOnly s).drop 1) ∧
      validate_phone ('+' :: '7' :: (digitsOnly s).drop 1) = true ∧
      normalize_phone ('+' :: '7' :: (digitsOnly s).drop 1)
        = some ('+' :: '7' :: (digitsOnly s).drop 1)) ∧
    (¬((digitsOnly s).length = 10 ∧ pyStartsWith (digitsOnly s) ['9'] = true) →
     ¬((digitsOnly s).length = 11 ∧ pyStartsWith (digitsOnly s) ['7'] = true) →
     ¬((digitsOnly s).length = 11 ∧ pyStartsWith (digitsOnly s) ['8'] = true) →
      normalize_phone s = none) := by
  have hplus : Char.isDigit '+' = false := by decide
  have h7d : Char.isDigit '7' = true := by decide
  have h8d : Char.isDigit '8' = true := by decide
  have h9d : Char.isDigit '9' = true := by decide
  have hidem : digitsOnly (digitsOnly s) = digitsOnly s := digitsOnly_idem s
  refine ⟨?_, ?_, ?_, ?_⟩
  · intro h10 h9
    have hsne : s ≠ [] := by
      intro h
      rw [h] at h10
      simp [digitsOnly] at h10
    have htake : (digitsOnly s).take 1 = ['9'] := by
      simpa [pyStartsWith] using h9
    have hget : (digitsOnly s)[0]? = some '9' := take_one_elem htake
    have hdig : digitsOnly ('+' :: '7' :: digitsOnly s) = '7' :: digitsOnly s := by
      simp [digitsOnly_cons, hplus, h7d, hidem]
    refine ⟨?_, ?_, ?_⟩
    · simp [normalize_phone, hsne, h10, h9]
    · have hlen0 : 0 < (digitsOnly s).length := by omega
      simp [validate_phone, hdig, h10, pyStartsWith, hget]
      rw [List.getElem?_eq_getElem hlen0] at hget
      exact Option.some.inj hget
    · simp [normalize_phone, hdig, h10, pyStartsWith]
  · intro h11 h79
    have hsne : s ≠ [] := by
      intro h
      rw [h] at h11
      simp [digitsOnly] at h11
    have htake2 : (digitsOnly s).take 2 = ['7', '9'] := by
      simpa [pyStartsWith] using h79
    obtain ⟨t, hshape⟩ := take_two_shape htake2
    have hdd : digitsOnly ('7' :: '9' :: t) = '7' :: '9' :: t := by
      rw [hshape] at hidem
      exact hidem
    have ht : digitsOnly t = t := by
      simpa [digitsOnly_cons, h7d, h9d] using hdd
    have htlen : t.length = 9 := by
      rw [hshape] at h11
      simpa using h11
    refine ⟨?_, ?_, ?_⟩
    · simp [normalize_phone, hsne, h11, hshape, pyStartsWith, htlen]
    · simp [validate_phone, hshape, digitsOnly_cons, hplus, h7d, h9d, ht, htlen,
        pyStartsWith]
    · simp [normalize_phone, hshape, digitsOnly_cons, hplus, h7d, h9d, ht, htlen,
        pyStartsWith]
  · intro h11 h89
    have hsne : s ≠ [] := by
      intro h
      rw [h] at h11
      simp [digitsOnly] at h11
    have htake2 : (digitsOnly s).take 2 = ['8', '9'] := by
      simpa [pyStartsWith] using h89
    obtain ⟨t, hshape⟩ := take_two_shape htake2
    have hdd : digitsOnly ('8' :: '9' :: t) = '8' :: '9' :: t := by
      rw [hshape] at hidem
      exact hidem
    have ht : digitsOnly t = t := by
      simpa [digitsOnly_cons, h8d, h9d] using hdd
    have htlen : t.length = 9 := by
      rw [hshape] at h11
      simpa using h11
    refine ⟨?_, ?_, ?_⟩
    · simp [normalize_phone, hsne, h11, hshape, pyStartsWith, htlen]
    · simp [validate_phone, hshape, digitsOnly_cons, hplus, h7d, h9d, ht, htlen,
        pyStartsWith]
    · simp [normalize_phone, hshape, digitsOnly_cons, hplus, h7d, h9d, ht, htlen,
        pyStartsWith]
  · intro hn1 hn2 hn3
    by_cases hs : s = []
    · simp [normalize_phone, hs]
    · simp [normalize_phone, hs, hn1, hn2, hn3]

/-- An 11-digit string starting with 70: in none of the claim's three
accepted forms. -/
def phoneOdd : List Char := '7' :: List.replicate 10 '0'

/-- C9 counterexample: `70000000000` matches none of the claim's three raw
forms (not 10 digits starting 9, not 11 starting 79, not 11 starting 89),
yet `normalize_phone` returns `+70000000000` rather than absent. -/
theorem c9_counterexample :
    (¬((digitsOnly phoneOdd).length = 10 ∧
        pyStartsWith (digitsOnly phoneOdd) ['9'] = true)) ∧
    pyStartsWith (digitsOnly phoneOdd) ['7', '9'] = false ∧
    pyStartsWith (digitsOnly phoneOdd) ['8', '9'] = false ∧
    normalize_phone phoneOdd = some ('+' :: phoneOdd) ∧
    some ('+' :: phoneOdd) ≠ (none : Option (List Char)) := by
  decide

/-- The spec's worked example `89161234567`, digit-for-digit. -/
def phone89 : List Char :=
  ['8', '9', '1', '6', '1', '2', '3', '4', '5', '6', '7']

/-- C9 witness: the 89-form example normalises to `+79161234567`, which
validates and re-normalises to itself. -/
theorem c9_witness :
    normalize_phone phone89
      = some ('+' :: '7' :: (digitsOnly phone89).drop 1) ∧
    validate_phone ('+' :: '7' :: (digitsOnly phone89).drop 1) = true ∧
    normalize_phone ('+' :: '7' :: (digitsOnly phone89).drop 1)
      = some ('+' :: '7' :: (digitsOnly phone89).drop 1) :=
  (c9_phone_normalization_amended phone89).2.2.1 (by decide) (by decide)

end SportFzo
